import Mathlib

/-!
Verification of the `download-video` repository against its specification.

The repository has three user interfaces (a Flask web app in `app.py`, a
desktop GUI, a terminal script) over the external `yt_dlp` library, plus a
"clean architecture" layer (`domain/`, `application/`, `infrastructure/`).
This file gives a shallow embedding of the pure logic the claims are about:

* the format-sorting routines of `app.py` (`VideoDownloader._extract_formats`),
  `application/services.py` (`FormatSelectionService.sort_formats`) and
  `infrastructure/video_repository_impl.py` (`YtDlpVideoRepository._extract_formats`);
* the fallback format-selector string built in `VideoDownloader.download_video`;
* the exception-message lookup tables of the two `get_video_info` variants;
* the `POST /download` route handler of `app.py` acting on the global
  `download_status` dictionary;
* `VideoInfo.duration_formatted` of `domain/entities.py`;
* the metadata projections of `yt_dlp` info dictionaries;
* `JsonConfigurationRepository` of `infrastructure/config_repository_impl.py`;
* `PathService.sanitize_filename` and
  `FormatSelectionService.get_recommended_formats` of `application/services.py`.

Modelling conventions.  Python strings are Lean `String`s and all string
operations are defined here by structural recursion over `String.toList`, so
that every definition evaluates inside the kernel.  Python `int` is `Int`
(`Nat` where the source value is a byte count); for a positive literal
divisor Python `//` and `%` agree with `Int`'s `/` and `%` (both are floor
division with a nonnegative remainder), which is the only way the code
divides.  A dictionary field that may be missing is an `Option`; `d.get(k,
v)` is `Option.getD`, and a key stored with value `None` is modelled as the
key being absent, which is how every `.get` call in the code treats it.
Raising an exception is `Except.error` carrying the exception message.
-/

set_option maxRecDepth 10000

/-! ### Python string primitives -/

/-- The whitespace characters stripped by Python `str.strip()` (the ASCII
ones; the code never feeds non-ASCII whitespace to `strip`). -/
def pySpace (c : Char) : Bool :=
  c = ' ' || c = '\t' || c = '\n' || c = '\x0d' || c = '\x0b' || c = '\x0c'

/-- Python `str.strip()` on the character list: drop leading and trailing
whitespace. -/
def stripChars (l : List Char) : List Char :=
  ((l.dropWhile pySpace).reverse.dropWhile pySpace).reverse

/-- Python `str.strip()`. -/
def pyStrip (s : String) : String := String.mk (stripChars s.toList)

/-- Python `str.lower()` restricted to ASCII letters, the only characters the
code lowercases (URLs and scheme names). -/
def asciiLower (c : Char) : Char :=
  if 'A' ≤ c ∧ c ≤ 'Z' then Char.ofNat (c.toNat + 32) else c

/-- Python `str.lower()`. -/
def strLower (s : String) : String := String.mk (s.toList.map asciiLower)

/-- `pat` is a prefix of `l`. -/
def listPrefixOf : List Char → List Char → Bool
  | [], _ => true
  | _ :: _, [] => false
  | a :: as, b :: bs => a = b && listPrefixOf as bs

/-- `pat` occurs contiguously inside `l`. -/
def listInfixOf (pat : List Char) : List Char → Bool
  | [] => listPrefixOf pat []
  | b :: bs => listPrefixOf pat (b :: bs) || listInfixOf pat bs

/-- Python `pat in s` on strings: substring containment. -/
def containsSub (s pat : String) : Bool := listInfixOf pat.toList s.toList

/-- Python slicing `l[:k]` for an `Int` bound `k` (a negative bound counts
from the end, clamped at zero). -/
def pySliceUpto (k : Int) (l : List Char) : List Char :=
  if 0 ≤ k then l.take k.toNat else l.take ((l.length : Int) + k).toNat

/-! ### Python `list.sort(key=..., reverse=True)`

Python's sort is stable, and `reverse=True` flips the comparison while
keeping equal-key elements in their original order.  The stable ordering
determined by a total preorder is unique, so any stable sorting algorithm
models it; we use insertion sort, which evaluates by kernel reduction.
`pyInsert le a l` places `a` before the first element `b` with `le a b`;
with `le a b := key b ≤ key a` this is exactly the stable descending sort:
`a` (originally earlier, because `pySort` folds from the right) stays before
`b` whenever `key a ≥ key b`. -/

def pyInsert {α : Type} (le : α → α → Bool) (a : α) : List α → List α
  | [] => [a]
  | b :: l => if le a b then a :: b :: l else b :: pyInsert le a l

def pySort {α : Type} (le : α → α → Bool) (l : List α) : List α :=
  l.foldr (pyInsert le) []

/-- The lexicographic order on a `(height, flag)` sort key, which is how
Python compares the key tuples built by the three sorting routines
(`False < True` on booleans). -/
def tupKeyLe (p q : Int × Bool) : Bool :=
  decide (p.1 < q.1 ∨ (p.1 = q.1 ∧ (p.2 → q.2)))

/-! ### Data model: `yt_dlp` info dictionaries and the repository's records -/

/-- One entry of `info['formats']` as the code reads it: exactly the keys the
repository accesses, each optional (`.get` with a default elsewhere). -/
structure FmtDict where
  format_id : Option String := none
  resolution : Option String := none
  height : Option Int := none
  width : Option Int := none
  ext : Option String := none
  filesize : Option Nat := none
  url : Option String := none
  vcodec : Option String := none
  acodec : Option String := none
  format_note : Option String := none
deriving DecidableEq, Repr

/-- The top-level info dictionary returned by `ydl.extract_info`, restricted
to the keys the repository reads. -/
structure YdlInfo where
  title : Option String := none
  duration : Option Int := none
  uploader : Option String := none
  view_count : Option Int := none
  description : Option String := none
  thumbnail : Option String := none
  webpage_url : Option String := none
  upload_date : Option String := none
  formats : Option (List FmtDict) := none
deriving DecidableEq, Repr

/-- Rendering of `f"{filesize/(1024*1024):.1f}"` for a byte count
`n : Nat`.  The Python float division `n / 1048576` is exact for every
`n < 2^53` (every real file size), and `.1f` then rounds the exact value to
one decimal digit with ties to even, which is this integer computation. -/
def fmtMB1 (n : Nat) : String :=
  let num := n * 10
  let q := num / 1048576
  let r := num % 1048576
  let q2 :=
    if 2 * r < 1048576 then q
    else if 1048576 < 2 * r then q + 1
    else if q % 2 = 0 then q else q + 1
  toString (q2 / 10) ++ "." ++ toString (q2 % 10)

/-- The `size_str` computation shared verbatim by `app.py` and
`YtDlpVideoRepository._extract_formats`: `filesize = fmt.get('filesize', 0)`
is truthy exactly when the key is present with a nonzero value. -/
def sizeStr (filesize : Option Nat) : String :=
  match filesize with
  | some n => if n = 0 then "Unknown" else fmtMB1 n ++ " MB"
  | none => "Unknown"

/-- The format dictionary built by `VideoDownloader._extract_formats` in
`app.py` (lines 156-165). -/
structure AppFormat where
  format_id : String
  resolution : String
  height : Int
  width : Int
  extension : String
  file_size : String
  has_audio : Bool
  format_note : String
deriving DecidableEq, Repr

/-- `fmt.get('url')` is falsy: key absent or empty string. -/
def urlFalsy (fmt : FmtDict) : Bool :=
  match fmt.url with
  | none => true
  | some u => decide (u = "")

/-- The two `continue` guards of `VideoDownloader._extract_formats`
(`app.py` lines 121-127): keep a format unless `fmt.get('vcodec') == 'none'`
or (`fmt.get('filesize') == 0` and `not fmt.get('url')`). -/
def appKeep (fmt : FmtDict) : Bool :=
  !decide (fmt.vcodec = some "none") &&
  !(decide (fmt.filesize = some 0) && urlFalsy fmt)

/-- The loop body of `VideoDownloader._extract_formats` (`app.py` lines
129-165) building one entry. -/
def mkAppFormat (fmt : FmtDict) : AppFormat :=
  let height := fmt.height.getD 0
  let fn0 := fmt.format_note.getD ""
  let format_note :=
    if fn0 = "" ∧ height ≠ 0 then
      if 1080 ≤ height then "High Quality"
      else if 720 ≤ height then "Medium Quality"
      else if 480 ≤ height then "Standard Quality"
      else "Low Quality"
    else fn0
  { format_id := fmt.format_id.getD "N/A"
    resolution := fmt.resolution.getD "N/A"
    height := height
    width := fmt.width.getD 0
    extension := fmt.ext.getD "N/A"
    file_size := sizeStr fmt.filesize
    has_audio := !decide (fmt.acodec = some "none")
    format_note := format_note }

/-- Descending-with-ties comparison for
`formats.sort(key=lambda x: (x['height'], x['has_audio']), reverse=True)`
(`app.py` line 168): `x` stays before `y` iff `key y ≤ key x`. -/
def appSortLe (x y : AppFormat) : Bool :=
  tupKeyLe (y.height, y.has_audio) (x.height, x.has_audio)

/-- `VideoDownloader._extract_formats` (`app.py` lines 115-171): filter, map,
stable descending sort, keep the first 15. -/
def appExtractFormats (info : YdlInfo) : List AppFormat :=
  let formats :=
    match info.formats with
    | none => []
    | some fs => (fs.filter appKeep).map mkAppFormat
  (pySort appSortLe formats).take 15

/-- `domain/entities.py`: the `VideoFormat` dataclass. -/
structure VideoFormat where
  format_id : String
  resolution : String
  height : Int
  width : Int
  extension : String
  file_size : Option String
  format_note : String
  has_audio : Bool
  is_auto : Bool := false
  is_compatible : Bool := false
deriving DecidableEq, Repr

/-- Descending-with-ties comparison for
`key=lambda x: (x.height, not x.has_audio), reverse=True`, used by both
`FormatSelectionService.sort_formats` (`application/services.py` line 57)
and `YtDlpVideoRepository._extract_formats`
(`infrastructure/video_repository_impl.py` line 162). -/
def svcSortLe (x y : VideoFormat) : Bool :=
  tupKeyLe (y.height, !y.has_audio) (x.height, !x.has_audio)

/-- `FormatSelectionService.sort_formats`. -/
def sortFormats (formats : List VideoFormat) : List VideoFormat :=
  pySort svcSortLe formats

/-- The loop body of `YtDlpVideoRepository._extract_formats`
(`infrastructure/video_repository_impl.py` lines 126-157). -/
def mkRepoFormat (fmt : FmtDict) : VideoFormat :=
  { format_id := fmt.format_id.getD "N/A"
    resolution := fmt.resolution.getD "N/A"
    height := fmt.height.getD 0
    width := fmt.width.getD 0
    extension := fmt.ext.getD "N/A"
    file_size := some (sizeStr fmt.filesize)
    format_note := fmt.format_note.getD ""
    has_audio := !decide (fmt.acodec = some "none") }

/-- `YtDlpVideoRepository._extract_formats` (lines 120-163): skip
`vcodec == 'none'`, build entries, stable descending sort; no size/url skip
and no truncation, unlike the `app.py` variant. -/
def repoExtractFormats (info : YdlInfo) : List VideoFormat :=
  let formats :=
    match info.formats with
    | none => []
    | some fs => (fs.filter (fun f => !decide (f.vcodec = some "none"))).map mkRepoFormat
  pySort svcSortLe formats

/-! ### `app.py`: format selector, error table, URL check, download route -/

/-- The fallback format-selector string of `VideoDownloader.download_video`
(`app.py` lines 183-186).  It depends only on `format_id`; the later
`download_opts.update(self.ydl_opts)` cannot overwrite it because
`ydl_opts` has no `format` key. -/
def formatSelector (format_id : String) : String :=
  if format_id = "best" then
    "best[height<=1080]/best[height<=720]/best[height<=480]/best"
  else
    format_id ++ "+bestaudio/bestaudio/best"

/-- The exception-message table of `VideoDownloader.get_video_info`
(`app.py` lines 95-113): the message of the exception raised for an
extraction failure with message `error_msg` on URL `url`. -/
def appInfoErrorMsg (url error_msg : String) : String :=
  if containsSub error_msg "HTTP Error 403" then
    if containsSub (strLower url) "movies4us" || containsSub (strLower url) "streaming" then
      "This appears to be a streaming site with strong anti-bot protection. These sites typically don\x27t allow direct downloads. Try using a supported platform like YouTube, Vimeo, or other major video sites."
    else
      "Access denied. This video may be private, region-restricted, or require authentication. Please try a different video or check if the video is publicly available."
  else if containsSub error_msg "Video unavailable" then
    "This video is unavailable. It may have been removed, made private, or is not accessible."
  else if containsSub error_msg "Requested format is not available" then
    "The requested video format is not available. Please try a different video or check the video URL."
  else if containsSub error_msg "Sign in to confirm your age" then
    "This video requires age verification. Please try a different video."
  else if containsSub error_msg "No video formats found" then
    "No downloadable video formats found. This site may not be supported or may require special access."
  else if containsSub error_msg "Unsupported URL" then
    "This URL is not supported. Please try a video from YouTube, Vimeo, or other supported platforms."
  else
    "Error extracting video info: " ++ error_msg

/-- The exception-message table of `YtDlpVideoRepository.get_video_info`
(`infrastructure/video_repository_impl.py` lines 48-57): note it handles
only three of the six substrings, and checks the format-unavailable
substring before the video-unavailable one. -/
def repoInfoErrorMsg (error_msg : String) : String :=
  if containsSub error_msg "HTTP Error 403" then
    "Access denied. This might be due to regional restrictions or rate limiting. Please try again later or use a VPN."
  else if containsSub error_msg "Requested format is not available" then
    "The requested video format is not available. Please try a different format."
  else if containsSub error_msg "Video unavailable" then
    "This video is unavailable. It may have been removed or made private."
  else
    "Error extracting video info: " ++ error_msg

/-- A character allowed in a URL scheme by `urllib.parse`
(`scheme_chars`): letters, digits, `+`, `-`, `.`. -/
def isSchemeChar (c : Char) : Bool :=
  c.isAlphanum || c = '+' || c = '-' || c = '.'

/-- The scheme-splitting step of `urllib.parse.urlsplit`: if the text before
the first `:` is nonempty, starts with an ASCII letter and consists of
scheme characters, it is the scheme (lowercased) and the remainder follows
the colon; otherwise there is no scheme. -/
def pySplitScheme (l : List Char) : List Char × List Char :=
  let pre := l.takeWhile (fun c => !(c = ':'))
  if pre.length < l.length ∧ 0 < pre.length ∧
      (pre.headD ' ').isAlpha ∧ pre.all isSchemeChar then
    (pre.map asciiLower, l.drop (pre.length + 1))
  else ([], l)

/-- The netloc step of `urllib.parse.urlsplit`: when the post-scheme text
starts with `//`, the netloc runs up to the next `/`, `?` or `#`.  (The
bracket-validity check for IPv6 hosts is omitted; no claim involves such
URLs.) -/
def pyNetloc : List Char → List Char
  | '/' :: '/' :: r => r.takeWhile (fun c => !(c = '/' || c = '?' || c = '#'))
  | _ => []

/-- `VideoDownloader.is_valid_url` (`app.py` lines 60-69): nonempty after
stripping, scheme `http` or `https`, and a truthy (nonempty) netloc. -/
def isValidUrl (url : String) : Bool :=
  if pyStrip url = "" then false
  else
    let (scheme, rest) := pySplitScheme url.toList
    let netloc := pyNetloc rest
    (String.mk scheme = "http" || String.mk scheme = "https") && !netloc.isEmpty

/-- The global `download_status` dictionary of `app.py` (lines 28-34). -/
structure DownloadStatus where
  in_progress : Bool
  progress : Nat
  status : String
  filename : String
  error : Option String
deriving DecidableEq, Repr

/-- The JSON body returned by the `/download` route. -/
structure JsonResponse where
  success : Bool
  error : Option String := none
  message : Option String := none
deriving DecidableEq, Repr

/-- What the `/download` route handler did: its response, the value of
`download_status` at the moment the response is returned, and whether it
spawned a worker thread. -/
structure RouteOutcome where
  resp : JsonResponse
  st : DownloadStatus
  thread_started : Bool
deriving DecidableEq, Repr

/-- The `POST /download` route handler of `app.py` (lines 281-332) as a
transition on `download_status`.  `rawUrl` is `data.get('url', '')`; the
request's `format` and `filename` fields only parametrise the worker thread
and play no part in the decision, so they are omitted.  The Flask
development server the app runs under handles requests sequentially, so the
handler-level transition is the whole behaviour. -/
def downloadRoute (rawUrl : String) (st : DownloadStatus) : RouteOutcome :=
  let url := pyStrip rawUrl
  if url = "" then
    ⟨{ success := false, error := some "Please enter a URL" }, st, false⟩
  else if !isValidUrl url then
    ⟨{ success := false, error := some "Please enter a valid URL" }, st, false⟩
  else if st.in_progress then
    ⟨{ success := false, error := some "A download is already in progress" }, st, false⟩
  else
    ⟨{ success := true, message := some "Download started" },
     ⟨true, 0, "Starting download...", "", none⟩, true⟩

/-! ### `domain/entities.py`: `VideoInfo` and `duration_formatted` -/

/-- `domain/entities.py`: the `VideoInfo` dataclass. -/
structure VideoInfo where
  title : String
  url : String
  duration : Option Int := none
  description : Option String := none
  uploader : Option String := none
  upload_date : Option String := none
  view_count : Option Int := none
deriving DecidableEq, Repr

/-- Rendering of the Python format spec `f"{n:02d}"`: zero-pad a nonnegative
integer to at least two digits (a negative value carries its sign and is
never shorter than two characters anyway). -/
def fmtField02 (n : Int) : String :=
  if n < 0 then toString n
  else if n < 10 then "0" ++ toString n
  else toString n

/-- `VideoInfo.duration_formatted` (`domain/entities.py` lines 58-71).
`if not self.duration` is true for a missing duration and for zero.
Python `//` and `%` on the positive literal divisors 3600 and 60 agree with
`Int`'s `/` and `%`. -/
def durationFormatted (v : VideoInfo) : String :=
  match v.duration with
  | none => "Unknown"
  | some d =>
    if d = 0 then "Unknown"
    else
      let hours := d / 3600
      let minutes := (d % 3600) / 60
      let seconds := d % 60
      if 0 < hours then
        fmtField02 hours ++ ":" ++ fmtField02 minutes ++ ":" ++ fmtField02 seconds
      else
        fmtField02 minutes ++ ":" ++ fmtField02 seconds

/-! ### Metadata projections of the info dictionary -/

/-- The dictionary built by `VideoDownloader.get_video_info`
(`app.py` lines 86-94). -/
structure AppVideoInfo where
  title : String
  duration : Int
  uploader : String
  view_count : Int
  description : String
  thumbnail : String
  formats : List AppFormat
deriving DecidableEq, Repr

/-- `VideoDownloader.get_video_info` (`app.py` lines 86-94), the successful
path.  The description is `info.get('description','')[:200] + '...'` when
truthy, else `''`. -/
def appGetVideoInfo (info : YdlInfo) : AppVideoInfo :=
  { title := info.title.getD "Unknown Title"
    duration := info.duration.getD 0
    uploader := info.uploader.getD "Unknown"
    view_count := info.view_count.getD 0
    description :=
      match info.description with
      | some dsc => if dsc = "" then "" else String.mk (dsc.toList.take 200) ++ "..."
      | none => ""
    thumbnail := info.thumbnail.getD ""
    formats := appExtractFormats info }

/-- `YtDlpVideoRepository._convert_to_video_info`
(`infrastructure/video_repository_impl.py` lines 108-118). -/
def convertToVideoInfo (info : YdlInfo) : VideoInfo :=
  { title := info.title.getD "Unknown Title"
    url := info.webpage_url.getD ""
    duration := info.duration
    description := info.description
    uploader := info.uploader
    upload_date := info.upload_date
    view_count := info.view_count }

/-! ### `infrastructure/config_repository_impl.py` -/

/-- The in-memory `self.config` dictionary of `JsonConfigurationRepository`,
restricted to the two keys the claims concern.  A `none` field stands for
the key being absent or stored as JSON `null` (the getters treat those the
same). -/
structure AppConfig where
  download_path : Option String := none
  preferred_format : Option String := none
deriving DecidableEq, Repr

/-- `JsonConfigurationRepository.get_download_path`. -/
def getDownloadPath (c : AppConfig) : String :=
  c.download_path.getD "downloads"

/-- `JsonConfigurationRepository.set_download_path` (lines 23-29):
`if not path or not path.strip()` raise before any mutation, so an error
leaves the configuration exactly as it was; on success the key is updated
and `_save_config` writes it out (file I/O, modelled as succeeding). -/
def setDownloadPath (path : String) (c : AppConfig) : Except String AppConfig :=
  if pyStrip path = "" then Except.error "Download path cannot be empty"
  else Except.ok { c with download_path := some path }

/-- `JsonConfigurationRepository.get_preferred_format`. -/
def getPreferredFormat (c : AppConfig) : Option String :=
  c.preferred_format

/-- `JsonConfigurationRepository.set_preferred_format` (lines 35-41). -/
def setPreferredFormat (format_id : String) (c : AppConfig) : Except String AppConfig :=
  if pyStrip format_id = "" then Except.error "Format ID cannot be empty"
  else Except.ok { c with preferred_format := some format_id }

/-! ### `application/services.py` -/

/-- `FormatSelectionService.get_recommended_formats`
(`application/services.py` lines 18-53): prepend the automatic
"best with audio" option and the "best compatible" option to the given
formats. -/
def getRecommendedFormats (formats : List VideoFormat) : List VideoFormat :=
  let best_audio : VideoFormat :=
    { format_id := "bestvideo[ext=mp4]+bestaudio[ext=m4a]/best[ext=mp4]/best"
      resolution := "Best Available"
      height := 9999
      width := 9999
      extension := "mp4"
      file_size := some "Unknown"
      format_note := "Best quality with audio (automatic selection)"
      has_audio := true
      is_auto := true }
  let best_compatible : VideoFormat :=
    { format_id := "best[height<=720][ext=mp4]/best[height<=720]/best[ext=mp4]/best"
      resolution := "720p or lower (Compatible)"
      height := 720
      width := 1280
      extension := "mp4"
      file_size := some "Unknown"
      format_note := "Best compatible format for all players"
      has_audio := true
      is_compatible := true }
  best_audio :: best_compatible :: formats

/-- The characters `PathService.sanitize_filename` replaces. -/
def invalidChars : List Char := ['<', '>', ':', '"', '/', '\\', '|', '?', '*']

/-- Replacing one character by `'_'` everywhere: one iteration of the
`filename.replace(char, '_')` loop. -/
def repOne (c x : Char) : Char := if x = c then '_' else x

/-- The replacement loop of `PathService.sanitize_filename`
(`application/services.py` lines 93-95). -/
def sanitizeReplace (l : List Char) : List Char :=
  invalidChars.foldl (fun acc c => acc.map (repOne c)) l

/-- The index of the last occurrence of `c` in `l`, as `str.rfind`. -/
def lastIdxOf (c : Char) : List Char → Option Nat
  | [] => none
  | a :: as =>
    match lastIdxOf c as with
    | some j => some (j + 1)
    | none => if a = c then some 0 else none

/-- `os.path.splitext` for a name containing no path separator (true of the
input here: `/` and `\` have just been replaced by `_`): split at the last
dot, unless every character before it is itself a dot (a leading-dots name
such as `.bashrc` has no extension). -/
def pySplitext (l : List Char) : List Char × List Char :=
  match lastIdxOf '.' l with
  | none => (l, [])
  | some i =>
    if (l.take i).all (fun c => c = '.') then (l, [])
    else (l.take i, l.drop i)

/-- `PathService.sanitize_filename` (`application/services.py` lines
90-102): replace the invalid characters, then if the result exceeds 200
characters keep `name[:200-len(ext)] + ext`. -/
def sanitizeFilename (filename : String) : String :=
  let l := sanitizeReplace filename.toList
  if 200 < l.length then
    let p := pySplitext l
    String.mk (pySliceUpto ((200 : Int) - p.2.length) p.1 ++ p.2)
  else String.mk l

/-! ### Concrete inputs used by the counterexamples and witnesses -/

/-- A 720p format with audio (a typical progressive YouTube format 22). -/
def vfA : VideoFormat :=
  { format_id := "22", resolution := "1280x720", height := 720, width := 1280,
    extension := "mp4", file_size := some "Unknown", format_note := "",
    has_audio := true }

/-- A 720p video-only format (a typical DASH format 136). -/
def vfN : VideoFormat :=
  { format_id := "136", resolution := "1280x720", height := 720, width := 1280,
    extension := "mp4", file_size := some "Unknown", format_note := "",
    has_audio := false }

/-- The `yt_dlp` format dictionary behind `vfA`. -/
def fdA : FmtDict :=
  { format_id := some "22", height := some 720, vcodec := some "avc1",
    acodec := some "mp4a", ext := some "mp4", url := some "http://cdn/a" }

/-- The `yt_dlp` format dictionary behind `vfN`. -/
def fdN : FmtDict :=
  { format_id := some "136", height := some 720, vcodec := some "avc1",
    acodec := some "none", ext := some "mp4", url := some "http://cdn/b" }

/-- An info dictionary whose format list holds the audio format first. -/
def info0 : YdlInfo := { formats := some [fdA, fdN] }

/-- An info dictionary with every metadata field present. -/
def info1 : YdlInfo :=
  { title := some "T", duration := some 120, uploader := some "U",
    view_count := some 7, description := some "D", thumbnail := some "TH",
    webpage_url := some "W", upload_date := some "20240101" }

/-- A `download_status` with a download in flight. -/
def stBusy : DownloadStatus :=
  { in_progress := true, progress := 40, status := "Downloading", filename := "", error := none }

/-- The idle `download_status`. -/
def stIdle : DownloadStatus :=
  { in_progress := false, progress := 0, status := "", filename := "", error := none }

/-- A filename whose extension alone exceeds the 200-character bound. -/
def longExtName : String := String.mk ('a' :: '.' :: List.replicate 220 'b')

/-! ### Helper lemmas -/

theorem mem_pyInsert {α : Type} (le : α → α → Bool) (a x : α) (l : List α) :
    x ∈ pyInsert le a l ↔ x = a ∨ x ∈ l := by
  induction l with
  | nil => simp [pyInsert]
  | cons b t ih =>
    simp only [pyInsert]
    by_cases h : le a b = true
    · simp [h]
    · simp only [h, Bool.false_eq_true, if_false, List.mem_cons, ih]
      tauto

theorem mem_pySort {α : Type} (le : α → α → Bool) (x : α) (l : List α) :
    x ∈ pySort le l ↔ x ∈ l := by
  induction l with
  | nil => simp [pySort]
  | cons b t ih =>
    simp only [pySort, List.foldr_cons, List.mem_cons]
    rw [mem_pyInsert]
    exact or_congr Iff.rfl ih

theorem mem_foldl_map_rep (cs l : List Char) (x : Char)
    (hx : x ∈ cs.foldl (fun acc c => acc.map (repOne c)) l) : x ∈ l ∨ x = '_' := by
  induction cs generalizing l with
  | nil => exact Or.inl hx
  | cons c cs ih =>
    rcases ih (l.map (repOne c)) hx with h | h
    · rcases List.mem_map.mp h with ⟨y, hy, hxy⟩
      by_cases hyc : y = c
      · right
        subst hyc
        simp [repOne] at hxy
        exact hxy.symm
      · left
        simp [repOne, hyc] at hxy
        exact hxy ▸ hy
    · exact Or.inr h

theorem not_mem_foldl_map_rep (cs : List Char) (hcs : '_' ∉ cs) (l : List Char) (x : Char)
    (hx : x ∈ cs.foldl (fun acc c => acc.map (repOne c)) l) : x ∉ cs := by
  induction cs generalizing l with
  | nil => simp
  | cons c cs ih =>
    have hcs2 : '_' ∉ cs := fun h => hcs (List.mem_cons_of_mem _ h)
    have hxcs : x ∉ cs := ih hcs2 (l.map (repOne c)) hx
    have hxne : x ≠ c := by
      rcases mem_foldl_map_rep cs (l.map (repOne c)) x hx with h | h
      · rcases List.mem_map.mp h with ⟨y, _, hxy⟩
        by_cases hyc : y = c
        · subst hyc
          simp [repOne] at hxy
          intro hc
          exact hcs (List.mem_cons.mpr (Or.inl (hxy.trans hc)))
        · simp [repOne, hyc] at hxy
          intro hc
          exact hyc (hxy.trans hc)
      · intro hc
        exact hcs (List.mem_cons.mpr (Or.inl (h.symm.trans hc)))
    intro hmem
    rcases List.mem_cons.mp hmem with h | h
    · exact hxne h
    · exact hxcs h

theorem mem_sanitizeReplace_not_invalid (l : List Char) (x : Char)
    (hx : x ∈ sanitizeReplace l) : x ∉ invalidChars :=
  not_mem_foldl_map_rep invalidChars (by decide) l x hx

theorem pySliceUpto_subset (k : Int) (l : List Char) : pySliceUpto k l ⊆ l := by
  unfold pySliceUpto
  split <;> exact List.take_subset _ _

theorem pySplitext_fst_subset (l : List Char) : (pySplitext l).1 ⊆ l := by
  unfold pySplitext
  split
  · exact fun _ h => h
  · split
    · exact fun _ h => h
    · exact List.take_subset _ _

theorem pySplitext_snd_subset (l : List Char) : (pySplitext l).2 ⊆ l := by
  unfold pySplitext
  split
  · simp
  · split
    · simp
    · exact List.drop_subset _ _

/-! ### Claims -/

/-- C2: for every format id, `VideoDownloader.download_video` builds the
format selector `best[height<=1080]/best[height<=720]/best[height<=480]/best`
when the id is `best`, and `<id>+bestaudio/bestaudio/best` otherwise; the
URL and custom filename play no part (the selector is a function of the
format id alone, as the definition of `formatSelector` shows). -/
theorem download_format_selector (format_id : String) :
    (format_id = "best" →
      formatSelector format_id =
        "best[height<=1080]/best[height<=720]/best[height<=480]/best") ∧
    (format_id ≠ "best" →
      formatSelector format_id = format_id ++ "+bestaudio/bestaudio/best") := by
  constructor
  · intro h
    simp [formatSelector, h]
  · intro h
    simp [formatSelector, h]

/-- Witness for C2 at the ids `best` and `137`. -/
theorem download_format_selector_witness :
    formatSelector "best" =
      "best[height<=1080]/best[height<=720]/best[height<=480]/best" ∧
    formatSelector "137" = "137" ++ "+bestaudio/bestaudio/best" :=
  ⟨(download_format_selector "best").1 rfl,
   (download_format_selector "137").2 (by decide)⟩

/-- C10: `FormatSelectionService.get_recommended_formats` returns a list two
longer than its input, whose first element is the automatic
"best with audio" option, whose second is the "best compatible" option
(height 720), and whose remaining elements are the input formats unchanged
and in order. -/
theorem get_recommended_formats_shape (formats : List VideoFormat) :
    (getRecommendedFormats formats).length = formats.length + 2 ∧
    ∃ a b, getRecommendedFormats formats = a :: b :: formats ∧
      a.is_auto = true ∧
      a.format_id = "bestvideo[ext=mp4]+bestaudio[ext=m4a]/best[ext=mp4]/best" ∧
      b.is_compatible = true ∧
      b.height = 720 := by
  refine ⟨by simp [getRecommendedFormats], ?_⟩
  exact ⟨_, _, rfl, rfl, rfl, rfl, rfl⟩

/-- C5: `VideoInfo.duration_formatted` renders a duration `d` with
`1 ≤ d < 3600` as `MM:SS` with `MM = d // 60` and `SS = d % 60`, both
zero-padded to two digits (`fmtField02` is the `{:02d}` rendering), and a
duration `d ≥ 3600` as `HH:MM:SS` with `HH = d // 3600`,
`MM = (d % 3600) // 60`, `SS = d % 60`. -/
theorem duration_formatted_clock (t u : String) (d : Int) :
    (1 ≤ d → d < 3600 →
      durationFormatted { title := t, url := u, duration := some d } =
        fmtField02 (d / 60) ++ ":" ++ fmtField02 (d % 60)) ∧
    (3600 ≤ d →
      durationFormatted { title := t, url := u, duration := some d } =
        fmtField02 (d / 3600) ++ ":" ++ fmtField02 ((d % 3600) / 60) ++ ":" ++
          fmtField02 (d % 60)) := by
  constructor
  · intro h1 h2
    have hd0 : ¬ d = 0 := by omega
    have hh : ¬ 0 < d / 3600 := by omega
    have hm : (d % 3600) / 60 = d / 60 := by omega
    simp only [durationFormatted, if_neg hd0, if_neg hh, hm]
  · intro h
    have hd0 : ¬ d = 0 := by omega
    have hh : 0 < d / 3600 := by omega
    simp only [durationFormatted, if_neg hd0, if_pos hh]

/-- Witness for C5: 120 seconds formats as `02:00`, 3661 seconds as
`01:01:01`. -/
theorem duration_formatted_clock_witness :
    durationFormatted { title := "t", url := "u", duration := some 120 } = "02:00" ∧
    durationFormatted { title := "t", url := "u", duration := some 3661 } = "01:01:01" := by
  constructor
  · rw [(duration_formatted_clock "t" "u" 120).1 (by decide) (by decide)]
    decide
  · rw [(duration_formatted_clock "t" "u" 3661).2 (by decide)]
    decide

/-- C1 (code bug): on the very same pair of 720p formats — format `22` with
audio listed before video-only format `136` — `app.py` sorts the audio
format first (key `(height, has_audio)`, `reverse=True`), while both
`FormatSelectionService.sort_formats` and
`YtDlpVideoRepository._extract_formats` sort the no-audio format first
(key `(height, not has_audio)` with `reverse=True` inverts the intended
tie-break).  The repository comment above the latter sort reads
"prioritizing formats with audio", which the code contradicts, so the
three routines neither implement the audio-first tie-break nor agree. -/
theorem sort_formats_audio_tiebreak_bug :
    vfA.height = vfN.height ∧ vfA.has_audio = true ∧ vfN.has_audio = false ∧
    sortFormats [vfA, vfN] = [vfN, vfA] ∧
    (appExtractFormats info0).map (fun f => (f.format_id, f.has_audio)) =
      [("22", true), ("136", false)] ∧
    (repoExtractFormats info0).map (fun f => (f.format_id, f.has_audio)) =
      [("136", false), ("22", true)] := by
  decide

/-- C6: the metadata records are pass-through projections of the info
dictionary: the title is copied (defaulting to `Unknown Title` when
absent), and the duration, uploader and (web variant) thumbnail are copied
untransformed, in both `VideoDownloader.get_video_info` and
`YtDlpVideoRepository._convert_to_video_info`. -/
theorem video_info_passthrough (info : YdlInfo) :
    (∀ t, info.title = some t →
      (appGetVideoInfo info).title = t ∧ (convertToVideoInfo info).title = t) ∧
    (info.title = none →
      (appGetVideoInfo info).title = "Unknown Title" ∧
      (convertToVideoInfo info).title = "Unknown Title") ∧
    (∀ d, info.duration = some d → (appGetVideoInfo info).duration = d) ∧
    (convertToVideoInfo info).duration = info.duration ∧
    (∀ u, info.uploader = some u → (appGetVideoInfo info).uploader = u) ∧
    (convertToVideoInfo info).uploader = info.uploader ∧
    (∀ th, info.thumbnail = some th → (appGetVideoInfo info).thumbnail = th) := by
  refine ⟨?_, ?_, ?_, rfl, ?_, rfl, ?_⟩
  · intro t h
    exact ⟨by simp [appGetVideoInfo, h], by simp [convertToVideoInfo, h]⟩
  · intro h
    exact ⟨by simp [appGetVideoInfo, h], by simp [convertToVideoInfo, h]⟩
  · intro d h
    simp [appGetVideoInfo, h]
  · intro u h
    simp [appGetVideoInfo, h]
  · intro th h
    simp [appGetVideoInfo, h]

/-- Witness for C6 on an info dictionary with every field present. -/
theorem video_info_passthrough_witness :
    (appGetVideoInfo info1).title = "T" ∧ (convertToVideoInfo info1).title = "T" ∧
    (appGetVideoInfo info1).duration = 120 ∧
    (appGetVideoInfo info1).uploader = "U" ∧
    (appGetVideoInfo info1).thumbnail = "TH" := by
  have h := video_info_passthrough info1
  have h1 := h.1 "T" rfl
  exact ⟨h1.1, h1.2, h.2.2.1 120 rfl, h.2.2.2.2.1 "U" rfl, h.2.2.2.2.2.2 "TH" rfl⟩

/-- C7: `JsonConfigurationRepository` rejects empty settings atomically: a
path or format id that is empty or whitespace-only makes the setter raise
`ConfigurationException` (the raise precedes any mutation, so the stored
configuration — and hence `get_download_path` — is unchanged, which the
`Except.error` return with no new state captures); and whenever
`set_download_path p` succeeds, `get_download_path` on the resulting
configuration returns `p`. -/
theorem config_repository_empty_rejected (p : String) (c : AppConfig) :
    (pyStrip p = "" →
      setDownloadPath p c = Except.error "Download path cannot be empty" ∧
      setPreferredFormat p c = Except.error "Format ID cannot be empty") ∧
    (∀ c2, setDownloadPath p c = Except.ok c2 → getDownloadPath c2 = p) := by
  constructor
  · intro h
    exact ⟨by simp [setDownloadPath, h], by simp [setPreferredFormat, h]⟩
  · intro c2 h
    by_cases hp : pyStrip p = ""
    · simp [setDownloadPath, hp] at h
    · simp only [setDownloadPath, if_neg hp, Except.ok.injEq] at h
      rw [← h]
      simp [getDownloadPath]

/-- Witness for C7: the whitespace path `"  "` is rejected by both setters,
and storing `/data` makes `get_download_path` return `/data`. -/
theorem config_repository_empty_rejected_witness :
    setDownloadPath "  " { download_path := none, preferred_format := none } =
      Except.error "Download path cannot be empty" ∧
    setPreferredFormat "  " { download_path := none, preferred_format := none } =
      Except.error "Format ID cannot be empty" ∧
    getDownloadPath { download_path := some "/data", preferred_format := none } = "/data" := by
  have h1 := (config_repository_empty_rejected "  "
    { download_path := none, preferred_format := none }).1 (by decide)
  have h2 := (config_repository_empty_rejected "/data"
    { download_path := none, preferred_format := none }).2
    { download_path := some "/data", preferred_format := none } rfl
  exact ⟨h1.1, h1.2, h2⟩

/-- C3 counterexample: the yt-dlp repository's `get_video_info` does not
handle the `Sign in to confirm your age` substring at all — the message
falls through to the generic string, not to the canned age-verification
string the claim assigns to it. -/
theorem error_message_tables_counterexample :
    containsSub "Sign in to confirm your age" "Sign in to confirm your age" = true ∧
    repoInfoErrorMsg "Sign in to confirm your age" =
      "Error extracting video info: Sign in to confirm your age" ∧
    repoInfoErrorMsg "Sign in to confirm your age" ≠
      "This video requires age verification. Please try a different video." := by
  decide

/-- C3 (amended): both error tables are first-match lookups in their code
order.  A message containing `Video unavailable` and no earlier-checked
substring maps, in both variants, to the canned string beginning
`This video is unavailable.`; the web variant handles all six known
substrings in the order 403, unavailable, format-not-available, age,
no-formats, unsupported-URL; the yt-dlp repository handles only 403,
format-not-available and unavailable (in that order) and maps every other
message — including the age, no-formats and unsupported-URL ones — to the
generic `Error extracting video info:` string. -/
theorem error_message_tables (url msg : String) :
    (containsSub msg "HTTP Error 403" = false →
      containsSub msg "Video unavailable" = true →
      appInfoErrorMsg url msg =
        "This video is unavailable. It may have been removed, made private, or is not accessible." ∧
      (containsSub msg "Requested format is not available" = false →
        repoInfoErrorMsg msg =
          "This video is unavailable. It may have been removed or made private.")) ∧
    (containsSub msg "HTTP Error 403" = true →
      repoInfoErrorMsg msg =
        "Access denied. This might be due to regional restrictions or rate limiting. Please try again later or use a VPN." ∧
      (containsSub (strLower url) "movies4us" = false →
        containsSub (strLower url) "streaming" = false →
        appInfoErrorMsg url msg =
          "Access denied. This video may be private, region-restricted, or require authentication. Please try a different video or check if the video is publicly available.")) ∧
    (containsSub msg "HTTP Error 403" = false →
      containsSub msg "Requested format is not available" = true →
      repoInfoErrorMsg msg =
        "The requested video format is not available. Please try a different format." ∧
      (containsSub msg "Video unavailable" = false →
        appInfoErrorMsg url msg =
          "The requested video format is not available. Please try a different video or check the video URL.")) ∧
    (containsSub msg "HTTP Error 403" = false →
      containsSub msg "Video unavailable" = false →
      containsSub msg "Requested format is not available" = false →
      repoInfoErrorMsg msg = "Error extracting video info: " ++ msg ∧
      (containsSub msg "Sign in to confirm your age" = true →
        appInfoErrorMsg url msg =
          "This video requires age verification. Please try a different video.") ∧
      (containsSub msg "Sign in to confirm your age" = false →
        containsSub msg "No video formats found" = true →
        appInfoErrorMsg url msg =
          "No downloadable video formats found. This site may not be supported or may require special access.") ∧
      (containsSub msg "Sign in to confirm your age" = false →
        containsSub msg "No video formats found" = false →
        containsSub msg "Unsupported URL" = true →
        appInfoErrorMsg url msg =
          "This URL is not supported. Please try a video from YouTube, Vimeo, or other supported platforms.") ∧
      (containsSub msg "Sign in to confirm your age" = false →
        containsSub msg "No video formats found" = false →
        containsSub msg "Unsupported URL" = false →
        appInfoErrorMsg url msg = "Error extracting video info: " ++ msg)) := by
  refine ⟨?_, ?_, ?_, ?_⟩
  · intro h1 h2
    refine ⟨by simp [appInfoErrorMsg, h1, h2], ?_⟩
    intro h3
    simp [repoInfoErrorMsg, h1, h2, h3]
  · intro h1
    refine ⟨by simp [repoInfoErrorMsg, h1], ?_⟩
    intro h2 h3
    simp [appInfoErrorMsg, h1, h2, h3]
  · intro h1 h2
    refine ⟨by simp [repoInfoErrorMsg, h1, h2], ?_⟩
    intro h3
    simp [appInfoErrorMsg, h1, h2, h3]
  · intro h1 h2 h3
    refine ⟨by simp [repoInfoErrorMsg, h1, h2, h3], ?_, ?_, ?_, ?_⟩
    · intro h4
      simp [appInfoErrorMsg, h1, h2, h3, h4]
    · intro h4 h5
      simp [appInfoErrorMsg, h1, h2, h3, h4, h5]
    · intro h4 h5 h6
      simp [appInfoErrorMsg, h1, h2, h3, h4, h5, h6]
    · intro h4 h5 h6
      simp [appInfoErrorMsg, h1, h2, h3, h4, h5, h6]

/-- Witness for C3 (amended) on a message containing `Video unavailable`
and none of the earlier-checked substrings. -/
theorem error_message_tables_witness :
    appInfoErrorMsg "http://a" "ERROR: Video unavailable" =
      "This video is unavailable. It may have been removed, made private, or is not accessible." ∧
    repoInfoErrorMsg "ERROR: Video unavailable" =
      "This video is unavailable. It may have been removed or made private." := by
  have h := (error_message_tables "http://a" "ERROR: Video unavailable").1
    (by decide) (by decide)
  exact ⟨h.1, h.2 (by decide)⟩

/-- C4 counterexample: a request arriving with an empty URL while a download
is in progress is answered with `Please enter a URL`, not with
`A download is already in progress` as the claim states for every request
made while `in_progress` is true (the URL checks come first in the
handler). -/
theorem download_route_busy_counterexample :
    stBusy.in_progress = true ∧
    (downloadRoute "" stBusy).resp.success = false ∧
    (downloadRoute "" stBusy).resp.error = some "Please enter a URL" ∧
    (some "Please enter a URL" : Option String) ≠
      some "A download is already in progress" := by
  decide

/-- C4 (amended): the handler spawns a worker thread only when
`in_progress` is false; while `in_progress` is true every request is
rejected with `success=False`, spawns no thread and leaves
`download_status` unchanged, and a request with a non-empty valid URL is
rejected with exactly `A download is already in progress` (an empty or
invalid URL is rejected earlier with its own message); when `in_progress`
is false a request with a non-empty valid URL starts one background thread,
sets `in_progress` to true and returns success. -/
theorem download_route_single_download (rawUrl : String) (st : DownloadStatus) :
    ((downloadRoute rawUrl st).thread_started = true → st.in_progress = false) ∧
    (st.in_progress = true →
      (downloadRoute rawUrl st).thread_started = false ∧
      (downloadRoute rawUrl st).st = st ∧
      (downloadRoute rawUrl st).resp.success = false) ∧
    (st.in_progress = true → pyStrip rawUrl ≠ "" → isValidUrl (pyStrip rawUrl) = true →
      (downloadRoute rawUrl st).resp.error = some "A download is already in progress") ∧
    (st.in_progress = false → pyStrip rawUrl ≠ "" → isValidUrl (pyStrip rawUrl) = true →
      (downloadRoute rawUrl st).thread_started = true ∧
      (downloadRoute rawUrl st).st.in_progress = true ∧
      (downloadRoute rawUrl st).resp.success = true) := by
  refine ⟨?_, ?_, ?_, ?_⟩
  · intro h
    by_cases h1 : pyStrip rawUrl = ""
    · simp [downloadRoute, h1] at h
    · cases hv : isValidUrl (pyStrip rawUrl) with
      | false => simp [downloadRoute, h1, hv] at h
      | true =>
        cases hp : st.in_progress with
        | false => rfl
        | true => simp [downloadRoute, h1, hv, hp] at h
  · intro hp
    by_cases h1 : pyStrip rawUrl = ""
    · simp [downloadRoute, h1]
    · cases hv : isValidUrl (pyStrip rawUrl) with
      | false => simp [downloadRoute, h1, hv]
      | true => simp [downloadRoute, h1, hv, hp]
  · intro hp h1 hv
    simp [downloadRoute, h1, hv, hp]
  · intro hp h1 hv
    simp [downloadRoute, h1, hv, hp]

/-- Witness for C4 (amended) at the URL `http://example.com`, once against
a busy status and once against the idle status. -/
theorem download_route_single_download_witness :
    (downloadRoute "http://example.com" stBusy).resp.error =
      some "A download is already in progress" ∧
    (downloadRoute "http://example.com" stBusy).thread_started = false ∧
    (downloadRoute "http://example.com" stIdle).thread_started = true ∧
    (downloadRoute "http://example.com" stIdle).st.in_progress = true := by
  have hb := download_route_single_download "http://example.com" stBusy
  have hi := download_route_single_download "http://example.com" stIdle
  refine ⟨hb.2.2.1 rfl (by decide) (by decide), (hb.2.1 rfl).1, ?_, ?_⟩
  · exact (hi.2.2.2 rfl (by decide) (by decide)).1
  · exact (hi.2.2.2 rfl (by decide) (by decide)).2.1

/-- C8: the web variant's `_extract_formats` returns at most 15 entries, and
every entry comes from an input format that is not audio-only
(`vcodec != 'none'`) and not unavailable (`filesize == 0` with a falsy
`url`). -/
theorem app_extract_formats_filtered (info : YdlInfo) :
    (appExtractFormats info).length ≤ 15 ∧
    ∀ e ∈ appExtractFormats info, ∃ fmt,
      fmt ∈ info.formats.getD [] ∧
      ¬ fmt.vcodec = some "none" ∧
      ¬ (fmt.filesize = some 0 ∧ urlFalsy fmt = true) ∧
      e = mkAppFormat fmt := by
  constructor
  · simp only [appExtractFormats]
    exact List.length_take_le _ _
  · intro e he
    cases hf : info.formats with
    | none =>
      simp only [appExtractFormats, hf] at he
      simp [pySort] at he
    | some fs =>
      simp only [appExtractFormats, hf] at he
      have he2 := List.take_subset _ _ he
      rw [mem_pySort] at he2
      rcases List.mem_map.mp he2 with ⟨fmt, hmem, hfmt⟩
      rcases List.mem_filter.mp hmem with ⟨hin, hkeep⟩
      refine ⟨fmt, by simp [hf, hin], ?_, ?_, hfmt.symm⟩
      · intro hv
        simp [appKeep, hv] at hkeep
      · rintro ⟨h0, hu⟩
        simp [appKeep, h0, hu] at hkeep

/-- Witness for C8 on `info0`: its first output entry comes from a kept
input format. -/
theorem app_extract_formats_filtered_witness :
    (appExtractFormats info0).length ≤ 15 ∧
    ∃ fmt, fmt ∈ info0.formats.getD [] ∧
      ¬ fmt.vcodec = some "none" ∧
      ¬ (fmt.filesize = some 0 ∧ urlFalsy fmt = true) ∧
      mkAppFormat fdA = mkAppFormat fmt :=
  ⟨(app_extract_formats_filtered info0).1,
   (app_extract_formats_filtered info0).2 (mkAppFormat fdA) (by decide)⟩

/-- C9 counterexample: on the filename `a.bbb...b` (one `a`, a dot, 220
`b`s) the sanitised result is 221 characters long — `splitext` makes the
whole 221-character tail the extension, `200 - len(ext)` is negative, the
name is sliced to nothing and the full extension is kept — so the
200-character bound of the claim fails. -/
theorem sanitize_filename_length_counterexample :
    200 < (sanitizeFilename longExtName).length ∧
    (sanitizeFilename longExtName).length = 221 := by
  decide

/-- C9 (amended): `sanitize_filename` removes every one of the characters
`< > : " / \ | ? *`, and its result has at most 200 characters whenever the
extension `os.path.splitext` finds in the replaced name has at most 200
characters (with a longer extension the truncation `name[:200-len(ext)]`
degenerates and the whole extension is kept, as the counterexample
shows). -/
theorem sanitize_filename_safe (s : String) :
    (∀ x ∈ (sanitizeFilename s).toList, x ∉ invalidChars) ∧
    ((pySplitext (sanitizeReplace s.toList)).2.length ≤ 200 →
      (sanitizeFilename s).length ≤ 200) := by
  constructor
  · intro x hx
    simp only [sanitizeFilename] at hx
    by_cases hlen : 200 < (sanitizeReplace s.toList).length
    · rw [if_pos hlen] at hx
      rcases List.mem_append.mp hx with h | h
      · exact mem_sanitizeReplace_not_invalid _ x
          (pySplitext_fst_subset _ (pySliceUpto_subset _ _ h))
      · exact mem_sanitizeReplace_not_invalid _ x (pySplitext_snd_subset _ h)
    · rw [if_neg hlen] at hx
      exact mem_sanitizeReplace_not_invalid _ x hx
  · intro hext
    simp only [sanitizeFilename]
    by_cases hlen : 200 < (sanitizeReplace s.toList).length
    · rw [if_pos hlen]
      have hmk : ∀ (a b : List Char), (String.mk (a ++ b)).length = a.length + b.length := by
        intro a b
        simp [String.length]
      rw [hmk]
      have hk : (0 : Int) ≤ 200 - ((pySplitext (sanitizeReplace s.toList)).2.length : Int) := by
        omega
      have hslice :
          (pySliceUpto ((200 : Int) - ((pySplitext (sanitizeReplace s.toList)).2.length : Int))
            (pySplitext (sanitizeReplace s.toList)).1).length ≤
            200 - (pySplitext (sanitizeReplace s.toList)).2.length := by
        simp only [pySliceUpto, if_pos hk]
        have h := List.length_take_le
          (((200 : Int) - ((pySplitext (sanitizeReplace s.toList)).2.length : Int)).toNat)
          (pySplitext (sanitizeReplace s.toList)).1
        omega
      omega
    · rw [if_neg hlen]
      have hmk : (String.mk (sanitizeReplace s.toList)).length =
          (sanitizeReplace s.toList).length := rfl
      omega

/-- Witness for C9 (amended) on the filename `my:video?.mp4`. -/
theorem sanitize_filename_safe_witness :
    'm' ∉ invalidChars ∧ (sanitizeFilename "my:video?.mp4").length ≤ 200 :=
  ⟨(sanitize_filename_safe "my:video?.mp4").1 'm' (by decide),
   (sanitize_filename_safe "my:video?.mp4").2 (by decide)⟩
